import Mathlib

/-!
Verification of the zstd compression-backend layer of stargz-snapshotter
(`compression/zstd`): worker-count heuristic (`cpu_cores.go`), backend
selection (`selector.go`), the portable klauspost-based backend and the two
gozstd wrapper variants, and the streaming round-trip contract.

Go machine integers are modelled as `Int` (the relevant arithmetic never
overflows 64 bits; `strconv.Atoi`'s int64 range check is modelled
explicitly).  Byte slices are `List Nat`.  A Go function that can panic is
modelled with an explicit `GoResult`; a nil-able Go pointer or interface
value is an `Option`.
-/

namespace StargzZstd

/-- Go `[]byte`. -/
abbrev Bytes := List Nat

/-! ## `strconv.Atoi` (Go standard library), as used by `cpu_cores.go` -/

/-- Accumulate base-10 digits; any non-digit character fails (Go
`strconv.Atoi` accepts only an optional sign followed by digits). -/
def parseDigitsAux : List Char → Nat → Option Nat
  | [], acc => some acc
  | c :: cs, acc =>
    if c.isDigit then parseDigitsAux cs (acc * 10 + (c.toNat - '0'.toNat))
    else none

/-- A non-empty all-digit string to a natural number. -/
def parseDigits : List Char → Option Nat
  | [] => none
  | cs => parseDigitsAux cs 0

/-- Go `strconv.Atoi` lives on 64-bit `int`: values outside
`[-2^63, 2^63-1]` yield `ErrRange`, i.e. a failed parse for the caller in
`cpu_cores.go` (which only checks `err == nil`). -/
def int64InRange (v : Int) : Option Int :=
  if -(2 ^ 63) ≤ v ∧ v < 2 ^ 63 then some v else none

/-- Go `strconv.Atoi`: optional `+`/`-` sign, then base-10 digits, with the
int64 range check. -/
def goAtoi (s : String) : Option Int :=
  match s.toList with
  | [] => none
  | '+' :: cs => (parseDigits cs).bind fun n => int64InRange (n : Int)
  | '-' :: cs => (parseDigits cs).bind fun n => int64InRange (-(n : Int))
  | cs => (parseDigits cs).bind fun n => int64InRange (n : Int)

/-! ## `GetOptimalWorkerCount` (`src/compression/zstd/cpu_cores.go`)

Inputs from the host, passed explicitly: the value of the `ZSTD_WORKERS`
environment variable (`os.Getenv` returns `""` when unset), the result of
`cpu.Counts(false)` (`some cores` models `err == nil`), and
`runtime.NumCPU()`. -/

/-- The environment-override block of `GetOptimalWorkerCount`: the override
is used exactly when it is non-empty, parses, and is strictly positive. -/
def workerOverride (workersEnv : String) : Option Int :=
  if workersEnv = "" then none
  else
    match goAtoi workersEnv with
    | some n => if n > 0 then some n else none
    | none => none

/-- The `runtime.NumCPU()/2` fallback branch, clamped to at least 1. -/
def fallbackWorkers (logicalCPUs : Int) : Int :=
  if Int.tdiv logicalCPUs 2 < 1 then 1 else Int.tdiv logicalCPUs 2

/-- Function `GetOptimalWorkerCount`: env override if positive, else 3/4 of the
physical cores when obtainable, else half the logical CPUs, each clamped to
at least 1.  Go's `/` on `int` truncates toward zero, hence `Int.div`. -/
def GetOptimalWorkerCount (workersEnv : String) (physCores : Option Int)
    (logicalCPUs : Int) : Int :=
  match workerOverride workersEnv with
  | some n => n
  | none =>
    match physCores with
    | some cores =>
      if cores > 0 then
        if Int.tdiv (cores * 3) 4 < 1 then 1 else Int.tdiv (cores * 3) 4
      else fallbackWorkers logicalCPUs
    | none => fallbackWorkers logicalCPUs

/-! ## Backends

`PureGoCompressor` (`src/unnamed/part_005`, klauspost-based) and
`GozstdCompressor` (two wrapper variants in the tree:
`src/compression/zstd/gozstd_wrapper.go` and the second half of
`src/unnamed/part_005`). -/

/-- The portable klauspost-based compressor (`type PureGoCompressor struct{}`). -/
structure PureGoCompressor
deriving DecidableEq

/-- The gozstd-based compressor record: `type GozstdCompressor struct { available bool }`. -/
structure GozstdCompressor where
  available : Bool
deriving DecidableEq

/-- Method `(p *PureGoCompressor) IsLibzstdAvailable` returns `false`. -/
def PureGoCompressor.IsLibzstdAvailable (_ : PureGoCompressor) : Bool := false

/-- Method `(p *PureGoCompressor) MaxCompressionLevel` returns `11`. -/
def PureGoCompressor.MaxCompressionLevel (_ : PureGoCompressor) : Int := 11

/-- Method `(g *GozstdCompressor) IsLibzstdAvailable` returns `g.available`. -/
def GozstdCompressor.IsLibzstdAvailable (g : GozstdCompressor) : Bool := g.available

/-- Method `(g *GozstdCompressor) MaxCompressionLevel`: `22` when available, else `0`
(identical in both wrapper variants). -/
def GozstdCompressor.MaxCompressionLevel (g : GozstdCompressor) : Int :=
  if g.available then 22 else 0

/-- The outcome of a Go computation that may panic. -/
inductive GoResult (α : Type)
  | ok (val : α)
  | panicked
deriving DecidableEq

/-- Possible behaviors of the trial `gozstd.Compress(nil, []byte("test"))`
inside `NewGozstdCompressor`: it either panics or returns, and on return the
availability test (`err == nil` in one variant, `compressed != nil` in the
other) either passes or fails. -/
inductive ProbeOutcome
  | panics
  | returns (probePassed : Bool)
deriving DecidableEq

/-- Constructor `NewGozstdCompressor` (both wrapper variants share this shape):

```go
available := false
defer func() { if r := recover(); r != nil { available = false } }()
... trial compression ...
available = ...
return &GozstdCompressor{available: available}
```

The deferred `recover` swallows a panic raised by the trial compression, but
the function's result parameter is *unnamed*: after a recovered panic the
function returns the zero value of `*GozstdCompressor`, which is `nil`
(the assignment to the local `available` inside the deferred closure cannot
reach the result).  So a panicking probe yields `none`, not an unavailable
compressor. -/
def NewGozstdCompressor : ProbeOutcome → Option GozstdCompressor
  | .panics => none
  | .returns b => some ⟨b⟩

/-- A Go method call `g.IsLibzstdAvailable()` on a possibly-nil
`*GozstdCompressor`: the body `return g.available` dereferences the
receiver, so a nil receiver is a run-time panic. -/
def callIsLibzstdAvailable : Option GozstdCompressor → GoResult Bool
  | none => .panicked
  | some g => .ok g.IsLibzstdAvailable

/-! ## Backend selection (`src/compression/zstd/selector.go`) -/

/-- The values of the `Compressor` interface that arise in this layer: the
two concrete implementations of `selector.go`'s choice. -/
inductive Compressor
  | pureGo (p : PureGoCompressor)
  | gozstd (g : GozstdCompressor)
deriving DecidableEq

/-- Process environment consumed by one run of the selection sequence: the
`STARGZ_FORCE_PURE_GO_ZSTD` variable (`""` when unset) and the behavior of
the gozstd trial compression in this process. -/
structure SelEnv where
  forcePureGoEnv : String
  probe : ProbeOutcome
deriving DecidableEq

/-- The package-level selection state of `selector.go`: the
`defaultCompressor` variable (a nil-able interface value) and whether the
`sync.Once` has been consumed. -/
structure SelState where
  defaultCompressor : Option Compressor
  onceDone : Bool
deriving DecidableEq

/-- The state at process start: `defaultCompressor` is the nil interface
value and the `sync.Once` has not run. -/
def initSelState : SelState := ⟨none, false⟩

/-- The body of `once.Do` in `GetCompressor`: honor
`STARGZ_FORCE_PURE_GO_ZSTD == "1"`, otherwise construct a gozstd compressor
and ask it `IsLibzstdAvailable()` — which panics when `NewGozstdCompressor`
returned nil after a recovered probe panic. -/
def selectCompressor (env : SelEnv) : GoResult Compressor :=
  if env.forcePureGoEnv = "1" then .ok (.pureGo ⟨⟩)
  else
    match callIsLibzstdAvailable (NewGozstdCompressor env.probe) with
    | .panicked => .panicked
    | .ok avail =>
      if avail then
        match NewGozstdCompressor env.probe with
        | some g => .ok (.gozstd g)
        | none => .panicked
      else .ok (.pureGo ⟨⟩)

/-- Function `GetCompressor`: run the selection sequence under the `sync.Once` guard
on first call, then return the memoized `defaultCompressor`. -/
def GetCompressor (env : SelEnv) (s : SelState) :
    GoResult (Option Compressor × SelState) :=
  if s.onceDone then .ok (s.defaultCompressor, s)
  else
    match selectCompressor env with
    | .panicked => .panicked
    | .ok c => .ok (some c, ⟨some c, true⟩)

/-- Function `SetCompressor` (test-only): assigns `defaultCompressor` directly,
without touching the `sync.Once`. -/
def SetCompressor (c : Compressor) (s : SelState) : SelState :=
  ⟨some c, s.onceDone⟩

/-- A sequence of `GetCompressor` calls, threading the package state;
a panic aborts the sequence. -/
def runGetCalls : List SelEnv → SelState → GoResult (List (Option Compressor) × SelState)
  | [], s => .ok ([], s)
  | e :: rest, s =>
    match GetCompressor e s with
    | .panicked => .panicked
    | .ok (c, s') =>
      match runGetCalls rest s' with
      | .panicked => .panicked
      | .ok (cs, s'') => .ok (c :: cs, s'')

/-! ## Streams and the external codec

The wrappers delegate the actual frame format to external codecs
(klauspost/compress/zstd resp. gozstd/libzstd).  Each external codec is an
explicit parameter: a compression function from the zstd-numbered level the
wrapper hands it (the wrapper-side level mapping — `EncoderLevelFromZstd`
in the portable backend, identity in the native one — is folded into it)
and a decompression function.  The codec's lossless round-trip contract is
a stated hypothesis where a claim needs it, never assumed silently. -/

/-- An external zstd codec as seen through the wrapper boundary. -/
structure Codec where
  compress : Int → Bytes → Bytes
  decompress : Bytes → Option Bytes

/-- The external library contract: decompression inverts compression at
every level. -/
def Codec.RoundTrip (c : Codec) : Prop :=
  ∀ level d, c.decompress (c.compress level d) = some d

/-- Error taxonomy of writer construction: invalid level or native library
unavailable (the two `fmt.Errorf` messages of the wrappers). -/
inductive CompressError
  | invalidLevel (level : Int)
  | unavailable
deriving DecidableEq

/-- A klauspost-backed writer: the validated level and the bytes written so
far (the encoder buffers until `Close` finalizes the frame). -/
structure PGWriter where
  level : Int
  buffered : Bytes
deriving DecidableEq

/-- Method `(p *PureGoCompressor) NewWriter`: levels outside `[0, 11]` are
rejected; otherwise the klauspost encoder is built (worker count and
encoder-level mapping only tune the encoder, they do not affect which bytes
round-trip). -/
def PureGoCompressor.NewWriter (_ : PureGoCompressor) (level : Int) :
    Except CompressError PGWriter :=
  if level < 0 ∨ level > 11 then .error (.invalidLevel level)
  else .ok ⟨level, []⟩

/-- Method `Write` on the portable writer appends to the frame's payload. -/
def PGWriter.write (w : PGWriter) (d : Bytes) : PGWriter :=
  ⟨w.level, w.buffered ++ d⟩

/-- Method `Close` on the portable writer finalizes the frame through the external
codec. -/
def PGWriter.close (w : PGWriter) (c : Codec) : Bytes :=
  c.compress w.level w.buffered

/-- Method `(p *PureGoCompressor) NewReader` constructs a decoder unconditionally;
reading everything back is the codec's decompression. -/
def PureGoCompressor.readAll (_ : PureGoCompressor) (c : Codec) (src : Bytes) :
    Option Bytes :=
  c.decompress src

/-- A gozstd-backed writer: the level actually passed to
`gozstd.NewWriterLevel` and the bytes written so far. -/
structure GZWriter where
  level : Int
  buffered : Bytes
deriving DecidableEq

/-- Constant `gozstd.DefaultCompressionLevel` (libzstd's `ZSTD_CLEVEL_DEFAULT`, 3). -/
def gozstdDefaultCompressionLevel : Int := 3

/-- Method `(g *GozstdCompressor) NewWriter` of
`src/compression/zstd/gozstd_wrapper.go`: unavailable fails fast; a level
below 1 is replaced by the gozstd default, a level above 22 is clamped to
22; no level is ever rejected. -/
def GozstdCompressor.NewWriterV1 (g : GozstdCompressor) (level : Int) :
    Except CompressError GZWriter :=
  if ¬g.available then .error .unavailable
  else
    let lvl :=
      if level < 1 then gozstdDefaultCompressionLevel
      else if level > 22 then 22 else level
    .ok ⟨lvl, []⟩

/-- Outcomes of the best-effort worker injection in the part_005 wrapper:
the reflective access to the private `cs` field fails, or
`ZSTD_CCtx_setParameter` reports an error, or the workers are set. -/
inductive InjectionOutcome
  | fieldInaccessible
  | setParameterFailed
  | injected
deriving DecidableEq

/-- Method `(g *GozstdCompressor) NewWriter` of `src/unnamed/part_005`:
unavailable fails fast; levels outside `[0, 22]` are rejected; level 0 maps
to the gozstd default; then the worker count is injected best-effort into
the encoder's internal `cs` slot — every injection outcome merely logs and
falls through to returning the constructed writer. -/
def GozstdCompressor.NewWriterV2 (g : GozstdCompressor) (level : Int)
    (inj : InjectionOutcome) : Except CompressError GZWriter :=
  if ¬g.available then .error .unavailable
  else if level < 0 ∨ level > 22 then .error (.invalidLevel level)
  else
    let lvl := if level = 0 then gozstdDefaultCompressionLevel else level
    match inj with
    | .fieldInaccessible => .ok ⟨lvl, []⟩
    | .setParameterFailed => .ok ⟨lvl, []⟩
    | .injected => .ok ⟨lvl, []⟩

/-- Method `Write` on the gozstd writer appends to the frame's payload. -/
def GZWriter.write (w : GZWriter) (d : Bytes) : GZWriter :=
  ⟨w.level, w.buffered ++ d⟩

/-- Method `Close` on the gozstd writer finalizes the frame through the external
codec. -/
def GZWriter.close (w : GZWriter) (c : Codec) : Bytes :=
  c.compress w.level w.buffered

/-- Method `(g *GozstdCompressor) NewReader` + read-all: fails fast when the
library is unavailable, otherwise decompresses through the codec. -/
def GozstdCompressor.readAll (g : GozstdCompressor) (c : Codec) (src : Bytes) :
    Except CompressError (Option Bytes) :=
  if ¬g.available then .error .unavailable
  else .ok (c.decompress src)

/-- Portable-backend pipeline: `NewWriter` at `level`, write `d`, `Close`,
then `NewReader` + read-all on the produced frame. -/
def pureGoPipeline (p : PureGoCompressor) (c : Codec) (level : Int) (d : Bytes) :
    Option Bytes :=
  match p.NewWriter level with
  | .error _ => none
  | .ok w => p.readAll c ((w.write d).close c)

/-- Same pipeline through the clamping gozstd wrapper variant. -/
def gozstdPipelineV1 (g : GozstdCompressor) (c : Codec) (level : Int)
    (d : Bytes) : Option Bytes :=
  match g.NewWriterV1 level with
  | .error _ => none
  | .ok w =>
    match g.readAll c ((w.write d).close c) with
    | .error _ => none
    | .ok r => r

/-- Same pipeline through the validating gozstd wrapper variant. -/
def gozstdPipelineV2 (g : GozstdCompressor) (c : Codec) (level : Int)
    (inj : InjectionOutcome) (d : Bytes) : Option Bytes :=
  match g.NewWriterV2 level inj with
  | .error _ => none
  | .ok w =>
    match g.readAll c ((w.write d).close c) with
    | .error _ => none
    | .ok r => r

/-- The identity codec: a concrete external codec satisfying the round-trip
contract, used to instantiate codec-parametric statements. -/
def idCodec : Codec :=
  { compress := fun _ d => d, decompress := fun d => some d }

theorem idCodec_roundTrip : idCodec.RoundTrip := fun _ _ => rfl

/-! ## Helper lemmas -/

theorem clamp_eq_max (t : Int) : (if t < 1 then 1 else t) = max 1 t := by
  rw [max_def]
  split_ifs <;> omega

theorem goAtoi_empty : goAtoi "" = none := rfl

theorem workerOverride_pos {workersEnv : String} {n : Int}
    (h : goAtoi workersEnv = some n) (hn : 0 < n) :
    workerOverride workersEnv = some n := by
  have hne : workersEnv ≠ "" := by
    intro he
    rw [he, goAtoi_empty] at h
    cases h
  unfold workerOverride
  rw [if_neg hne, h]
  simp [hn]

theorem workerOverride_absent {workersEnv : String}
    (h : ∀ n : Int, goAtoi workersEnv = some n → n ≤ 0) :
    workerOverride workersEnv = none := by
  unfold workerOverride
  split
  · rfl
  · cases hgo : goAtoi workersEnv with
    | none => simp
    | some n =>
      have hn := h n hgo
      simp [show ¬n > 0 by omega]

theorem workerOverride_some_pos {workersEnv : String} {n : Int}
    (h : workerOverride workersEnv = some n) : 0 < n := by
  unfold workerOverride at h
  split at h
  · cases h
  · cases hgo : goAtoi workersEnv with
    | none =>
      simp only [hgo] at h
      cases h
    | some m =>
      simp only [hgo] at h
      by_cases hm : m > 0
      · simp only [if_pos hm, Option.some.injEq] at h
        omega
      · simp only [if_neg hm] at h
        cases h

theorem one_le_fallbackWorkers (logicalCPUs : Int) : 1 ≤ fallbackWorkers logicalCPUs := by
  unfold fallbackWorkers
  split <;> omega

theorem fallbackWorkers_eq_max (logicalCPUs : Int) :
    fallbackWorkers logicalCPUs = max 1 (Int.tdiv logicalCPUs 2) := by
  unfold fallbackWorkers
  exact clamp_eq_max _

/-! ## Claims -/

/-- C5: `GetOptimalWorkerCount` follows the three-step policy exactly and
always returns an integer ≥ 1: a `ZSTD_WORKERS` override that parses as a
strictly positive integer is returned verbatim; an absent, non-positive or
non-numeric override falls through; then `max 1 (physical_cores * 3 / 4)`
when the physical core count is obtainable, else `max 1 (logical_cores / 2)`. -/
theorem getOptimalWorkerCount_policy (workersEnv : String) (physCores : Option Int)
    (logicalCPUs : Int) :
    1 ≤ GetOptimalWorkerCount workersEnv physCores logicalCPUs ∧
    (∀ n : Int, goAtoi workersEnv = some n → 0 < n →
      GetOptimalWorkerCount workersEnv physCores logicalCPUs = n) ∧
    ((∀ n : Int, goAtoi workersEnv = some n → n ≤ 0) →
      ∀ cores : Int, physCores = some cores → 0 < cores →
        GetOptimalWorkerCount workersEnv physCores logicalCPUs =
          max 1 (Int.tdiv (cores * 3) 4)) ∧
    ((∀ n : Int, goAtoi workersEnv = some n → n ≤ 0) →
      (∀ cores : Int, physCores = some cores → cores ≤ 0) →
        GetOptimalWorkerCount workersEnv physCores logicalCPUs =
          max 1 (Int.tdiv logicalCPUs 2)) := by
  refine ⟨?_, ?_, ?_, ?_⟩
  · unfold GetOptimalWorkerCount
    cases hov : workerOverride workersEnv with
    | some n =>
      have := workerOverride_some_pos hov
      dsimp only
      omega
    | none =>
      cases physCores with
      | some cores =>
        dsimp only
        split
        · split <;> omega
        · exact one_le_fallbackWorkers logicalCPUs
      | none => exact one_le_fallbackWorkers logicalCPUs
  · intro n hgo hn
    unfold GetOptimalWorkerCount
    rw [workerOverride_pos hgo hn]
  · intro habs cores hphys hpos
    unfold GetOptimalWorkerCount
    rw [workerOverride_absent habs, hphys]
    dsimp only
    rw [if_pos hpos]
    exact clamp_eq_max _
  · intro habs hnophys
    unfold GetOptimalWorkerCount
    rw [workerOverride_absent habs]
    cases hp : physCores with
    | some cores =>
      have := hnophys cores hp
      dsimp only
      rw [if_neg (by omega)]
      exact fallbackWorkers_eq_max logicalCPUs
    | none => exact fallbackWorkers_eq_max logicalCPUs

/-- Witness for C5: override `"4"` is returned verbatim, and an `"abc"`
override with 8 physical cores yields `max 1 6 = 6`. -/
theorem getOptimalWorkerCount_policy_witness :
    GetOptimalWorkerCount "4" (some 8) 16 = 4 ∧
    GetOptimalWorkerCount "abc" (some 8) 16 = 6 := by
  constructor
  · exact (getOptimalWorkerCount_policy "4" (some 8) 16).2.1 4 (by decide) (by decide)
  · have h := (getOptimalWorkerCount_policy "abc" (some 8) 16).2.2.1
      (by intro n hn; simp [goAtoi, parseDigits, parseDigitsAux] at hn)
      8 rfl (by decide)
    rw [h]
    decide

/-- C6: the portable backend's `NewWriter` accepts exactly the levels in
`[0, 11]`: in range it returns a writer carrying the requested level (no
clamping), out of range it returns the invalid-level error. -/
theorem pureGo_newWriter_level_validation (p : PureGoCompressor) (level : Int) :
    (0 ≤ level → level ≤ 11 →
      p.NewWriter level = .ok ⟨level, []⟩) ∧
    (level < 0 ∨ 11 < level →
      p.NewWriter level = .error (.invalidLevel level)) := by
  unfold PureGoCompressor.NewWriter
  constructor
  · intro h0 h11
    rw [if_neg (by omega)]
  · intro h
    rw [if_pos (by omega)]

/-- Witness for C6: level 7 is accepted unchanged, level 12 is rejected. -/
theorem pureGo_newWriter_level_validation_witness :
    PureGoCompressor.NewWriter ⟨⟩ 7 = .ok ⟨7, []⟩ ∧
    PureGoCompressor.NewWriter ⟨⟩ 12 = .error (.invalidLevel 12) :=
  ⟨(pureGo_newWriter_level_validation ⟨⟩ 7).1 (by decide) (by decide),
   (pureGo_newWriter_level_validation ⟨⟩ 12).2 (by decide)⟩

/-- C7 counterexample: at the same out-of-range level 23 with the library
available, the `gozstd_wrapper.go` variant silently clamps to 22 and
returns a writer, while the `part_005` variant rejects with an
invalid-level error — clamp-and-error behavior is mixed across the two
wrapper variants, so there is no single consistent out-of-range rule. -/
theorem gozstd_newWriter_variants_disagree :
    GozstdCompressor.NewWriterV1 ⟨true⟩ 23 = .ok ⟨22, []⟩ ∧
    GozstdCompressor.NewWriterV2 ⟨true⟩ 23 .injected =
      .error (.invalidLevel 23) := by
  constructor <;> rfl

/-- C7 (amended): both gozstd wrapper variants fail fast with the
unavailable error when libzstd is unavailable, and each variant follows its
own internally consistent rule — the `gozstd_wrapper.go` variant never
rejects a level (below 1 becomes the gozstd default, above 22 is clamped to
22), while the `part_005` variant rejects every level outside `[0, 22]` and
maps level 0 to the gozstd default; the two rules differ from each other. -/
theorem gozstd_newWriter_per_variant_rules (level : Int) (inj : InjectionOutcome) :
    GozstdCompressor.NewWriterV1 ⟨false⟩ level = .error .unavailable ∧
    GozstdCompressor.NewWriterV2 ⟨false⟩ level inj = .error .unavailable ∧
    GozstdCompressor.NewWriterV1 ⟨true⟩ level =
      .ok ⟨if level < 1 then gozstdDefaultCompressionLevel
           else if level > 22 then 22 else level, []⟩ ∧
    (level < 0 ∨ 22 < level →
      GozstdCompressor.NewWriterV2 ⟨true⟩ level inj =
        .error (.invalidLevel level)) ∧
    (0 ≤ level → level ≤ 22 →
      GozstdCompressor.NewWriterV2 ⟨true⟩ level inj =
        .ok ⟨if level = 0 then gozstdDefaultCompressionLevel else level, []⟩) := by
  refine ⟨?_, ?_, ?_, ?_, ?_⟩
  · simp [GozstdCompressor.NewWriterV1]
  · simp [GozstdCompressor.NewWriterV2]
  · simp [GozstdCompressor.NewWriterV1]
  · intro h
    simp only [GozstdCompressor.NewWriterV2]
    rw [if_neg (by simp), if_pos (by omega)]
  · intro h0 h22
    simp only [GozstdCompressor.NewWriterV2]
    rw [if_neg (by simp), if_neg (by omega)]
    cases inj <;> rfl

/-- Witness for C7's amended theorem: the strict variant rejects 23 and
maps level 0 to the default level 3; the clamp variant maps level 0 to 3 as
well. -/
theorem gozstd_newWriter_per_variant_rules_witness :
    GozstdCompressor.NewWriterV2 ⟨true⟩ 25 .injected = .error (.invalidLevel 25) ∧
    GozstdCompressor.NewWriterV2 ⟨true⟩ 0 .injected = .ok ⟨3, []⟩ ∧
    GozstdCompressor.NewWriterV1 ⟨true⟩ 0 = .ok ⟨3, []⟩ := by
  refine ⟨(gozstd_newWriter_per_variant_rules 25 .injected).2.2.2.1 (by omega), ?_, ?_⟩
  · have h := (gozstd_newWriter_per_variant_rules 0 .injected).2.2.2.2
      (by omega) (by omega)
    simpa [gozstdDefaultCompressionLevel] using h
  · have h := (gozstd_newWriter_per_variant_rules 0 .injected).2.2.1
    simpa [gozstdDefaultCompressionLevel] using h

/-- C8 counterexample: the gozstd wrapper with libzstd unavailable reports
no native availability, yet its `MaxCompressionLevel` is 0, not the
portable ceiling 11 claimed for non-native-available backends. -/
theorem gozstd_unavailable_maxLevel_not_eleven :
    GozstdCompressor.IsLibzstdAvailable ⟨false⟩ = false ∧
    GozstdCompressor.MaxCompressionLevel ⟨false⟩ = 0 ∧
    GozstdCompressor.MaxCompressionLevel ⟨false⟩ ≠ 11 := by
  refine ⟨rfl, rfl, ?_⟩
  decide

/-- C8 (amended): every capability record has `MaxCompressionLevel ≥ 0`;
a backend reporting native availability has the native ceiling 22; the
portable backend (which never reports native availability) has the portable
ceiling 11; the gozstd wrapper without libzstd reports 0. -/
theorem capability_record_invariant (p : PureGoCompressor) (g : GozstdCompressor) :
    0 ≤ p.MaxCompressionLevel ∧
    0 ≤ g.MaxCompressionLevel ∧
    p.IsLibzstdAvailable = false ∧
    p.MaxCompressionLevel = 11 ∧
    (g.IsLibzstdAvailable = true → g.MaxCompressionLevel = 22) ∧
    (g.IsLibzstdAvailable = false → g.MaxCompressionLevel = 0) := by
  obtain ⟨a⟩ := g
  cases a <;>
    simp [PureGoCompressor.MaxCompressionLevel, PureGoCompressor.IsLibzstdAvailable,
      GozstdCompressor.MaxCompressionLevel, GozstdCompressor.IsLibzstdAvailable]

/-- Witness for C8's amended theorem at both availability values. -/
theorem capability_record_invariant_witness :
    GozstdCompressor.MaxCompressionLevel ⟨true⟩ = 22 ∧
    GozstdCompressor.MaxCompressionLevel ⟨false⟩ = 0 :=
  ⟨(capability_record_invariant ⟨⟩ ⟨true⟩).2.2.2.2.1 rfl,
   (capability_record_invariant ⟨⟩ ⟨false⟩).2.2.2.2.2 rfl⟩

/-- C9: when libzstd is available and the level is valid, the `part_005`
gozstd `NewWriter` returns a usable writer with no error for every outcome
of the best-effort worker injection, and the constructed writer does not
depend on that outcome — injection failures are never surfaced. -/
theorem gozstd_newWriterV2_injection_isolated (g : GozstdCompressor) (level : Int)
    (inj inj2 : InjectionOutcome) (hav : g.available = true)
    (h0 : 0 ≤ level) (h22 : level ≤ 22) :
    g.NewWriterV2 level inj =
      .ok ⟨if level = 0 then gozstdDefaultCompressionLevel else level, []⟩ ∧
    g.NewWriterV2 level inj = g.NewWriterV2 level inj2 := by
  have hrule : ∀ i : InjectionOutcome,
      g.NewWriterV2 level i =
        .ok ⟨if level = 0 then gozstdDefaultCompressionLevel else level, []⟩ := by
    intro i
    simp only [GozstdCompressor.NewWriterV2]
    rw [if_neg (by simp [hav]), if_neg (by omega)]
    cases i <;> rfl
  exact ⟨hrule inj, (hrule inj).trans (hrule inj2).symm⟩

/-- Witness for C9: at level 3, a failed parameter injection still yields
the same successful writer as a successful injection. -/
theorem gozstd_newWriterV2_injection_isolated_witness :
    GozstdCompressor.NewWriterV2 ⟨true⟩ 3 .setParameterFailed =
      GozstdCompressor.NewWriterV2 ⟨true⟩ 3 .injected ∧
    GozstdCompressor.NewWriterV2 ⟨true⟩ 3 .setParameterFailed = .ok ⟨3, []⟩ := by
  have h := gozstd_newWriterV2_injection_isolated ⟨true⟩ 3 .setParameterFailed
    .injected rfl (by omega) (by omega)
  exact ⟨h.2, by simpa using h.1⟩

/-- C4: the probe's recovered panic is NOT converted into an unavailable
compressor — because `NewGozstdCompressor`'s result parameter is unnamed,
a recovered panic makes it return the nil pointer, and the subsequent
`IsLibzstdAvailable` call on that value panics instead of returning false. -/
theorem newGozstdCompressor_panic_returns_nil :
    NewGozstdCompressor .panics = none ∧
    callIsLibzstdAvailable (NewGozstdCompressor .panics) = .panicked :=
  ⟨rfl, rfl⟩

/-- C3: `GetCompressor` does not survive a panicking probe: with
`STARGZ_FORCE_PURE_GO_ZSTD` unset (or set to an unrecognized string) and
the trial compression panicking, the selection sequence panics via a nil
receiver instead of degrading to the portable backend. -/
theorem getCompressor_panics_on_probe_panic :
    GetCompressor ⟨"", .panics⟩ initSelState = .panicked ∧
    GetCompressor ⟨"unrecognized", .panics⟩ initSelState = .panicked := by
  constructor <;> rfl

theorem getCompressor_ok_state {env : SelEnv} {s : SelState}
    {c : Option Compressor} {s' : SelState}
    (h : GetCompressor env s = .ok (c, s')) :
    s'.onceDone = true ∧ s'.defaultCompressor = c := by
  unfold GetCompressor at h
  by_cases hd : s.onceDone
  · rw [if_pos hd] at h
    simp only [GoResult.ok.injEq, Prod.mk.injEq] at h
    obtain ⟨hc, hs⟩ := h
    subst hs
    exact ⟨by simpa using hd, hc⟩
  · rw [if_neg hd] at h
    cases hsel : selectCompressor env with
    | panicked => rw [hsel] at h; cases h
    | ok c0 =>
      rw [hsel] at h
      simp only [GoResult.ok.injEq, Prod.mk.injEq] at h
      obtain ⟨hc, hs⟩ := h
      subst hs
      exact ⟨rfl, hc⟩

/-- C2: absent any `SetCompressor` call, once a first `GetCompressor` call
has returned a compressor and left the memoized state behind, every
sequence of subsequent `GetCompressor` calls — under arbitrary later
environments — returns exactly that same compressor and never changes the
state. -/
theorem getCompressor_memoized (env : SelEnv) (s : SelState)
    (c : Option Compressor) (s' : SelState)
    (h : GetCompressor env s = .ok (c, s')) (envs : List SelEnv) :
    runGetCalls envs s' = .ok (List.replicate envs.length c, s') := by
  obtain ⟨hdone, hdef⟩ := getCompressor_ok_state h
  induction envs with
  | nil => rfl
  | cons e rest ih =>
    have hstep : GetCompressor e s' = .ok (c, s') := by
      unfold GetCompressor
      rw [if_pos (by simp [hdone]), hdef]
    unfold runGetCalls
    rw [hstep]
    dsimp only
    rw [ih]
    simp [List.replicate_succ]

/-- Witness for C2: after a first call that selected the portable backend
(forced via the env var), two further calls under different environments —
one of which would panic if the probe ran again — both return the portable
backend and leave the state untouched. -/
theorem getCompressor_memoized_witness :
    runGetCalls [⟨"", .returns true⟩, ⟨"1", .panics⟩]
        ⟨some (.pureGo ⟨⟩), true⟩ =
      .ok (List.replicate 2 (some (.pureGo ⟨⟩)), ⟨some (.pureGo ⟨⟩), true⟩) :=
  getCompressor_memoized ⟨"1", .returns true⟩ initSelState
    (some (.pureGo ⟨⟩)) ⟨some (.pureGo ⟨⟩), true⟩ (by decide)
    [⟨"", .returns true⟩, ⟨"1", .panics⟩]

/-- C10: `SetCompressor c` is effective only after the memoized selection
has run: on a state whose `sync.Once` is consumed, the next `GetCompressor`
returns exactly `c`; but from the initial state, the first `GetCompressor`
still runs the once-guarded selection and overwrites `c`, returning the
automatically selected backend instead. -/
theorem setCompressor_timing (c : Compressor) (env env2 : SelEnv) (s : SelState)
    (hdone : s.onceDone = true) (sel : Compressor)
    (hsel : selectCompressor env = .ok sel) :
    GetCompressor env2 (SetCompressor c s) = .ok (some c, SetCompressor c s) ∧
    GetCompressor env (SetCompressor c initSelState) =
      .ok (some sel, ⟨some sel, true⟩) := by
  constructor
  · unfold GetCompressor SetCompressor
    rw [if_pos (by simp [hdone])]
  · unfold GetCompressor SetCompressor initSelState
    rw [if_neg (by simp), hsel]

/-- Witness for C10: injecting the portable backend before the first call
is overwritten by the automatically selected gozstd backend, while the same
injection after the once has run is returned verbatim. -/
theorem setCompressor_timing_witness :
    GetCompressor ⟨"", .returns true⟩ (SetCompressor (.pureGo ⟨⟩) initSelState) =
      .ok (some (.gozstd ⟨true⟩), ⟨some (.gozstd ⟨true⟩), true⟩) ∧
    GetCompressor ⟨"", .returns true⟩
        (SetCompressor (.pureGo ⟨⟩) ⟨some (.gozstd ⟨true⟩), true⟩) =
      .ok (some (.pureGo ⟨⟩),
        SetCompressor (.pureGo ⟨⟩) ⟨some (.gozstd ⟨true⟩), true⟩) := by
  have h := setCompressor_timing (.pureGo ⟨⟩) ⟨"", .returns true⟩
    ⟨"", .returns true⟩ ⟨some (.gozstd ⟨true⟩), true⟩ rfl (.gozstd ⟨true⟩)
    (by decide)
  exact ⟨h.2, h.1⟩

/-- C1: for every external codec satisfying the lossless round-trip
contract, every backend, every level supported by that backend, and every
byte sequence `d` (including the empty one), writing `d` through the
backend's `NewWriter` at that level, closing, and reading the frame back
through the same backend's `NewReader` yields exactly `d`. -/
theorem backend_round_trip (c : Codec) (hc : c.RoundTrip) (p : PureGoCompressor)
    (g : GozstdCompressor) (hav : g.available = true) (level : Int) (d : Bytes)
    (inj : InjectionOutcome) :
    (0 ≤ level → level ≤ 11 → pureGoPipeline p c level d = some d) ∧
    gozstdPipelineV1 g c level d = some d ∧
    (0 ≤ level → level ≤ 22 → gozstdPipelineV2 g c level inj d = some d) := by
  refine ⟨?_, ?_, ?_⟩
  · intro h0 h11
    simp only [pureGoPipeline, PureGoCompressor.NewWriter]
    rw [if_neg (by omega)]
    simp [PureGoCompressor.readAll, PGWriter.write, PGWriter.close]
    exact hc level d
  · simp [gozstdPipelineV1, GozstdCompressor.NewWriterV1,
      GozstdCompressor.readAll, GZWriter.write, GZWriter.close, hav]
    exact hc _ d
  · intro h0 h22
    simp only [gozstdPipelineV2, GozstdCompressor.NewWriterV2]
    rw [if_neg (by simp [hav]), if_neg (by omega)]
    cases inj <;>
      · simp [GozstdCompressor.readAll, GZWriter.write, GZWriter.close, hav]
        exact hc _ d

/-- Witness for C1: the identity codec satisfies the round-trip contract,
and all three wrapper pipelines return the original bytes — including the
empty sequence through the portable backend. -/
theorem backend_round_trip_witness :
    pureGoPipeline ⟨⟩ idCodec 3 [] = some [] ∧
    gozstdPipelineV1 ⟨true⟩ idCodec 40 [7, 7] = some [7, 7] ∧
    gozstdPipelineV2 ⟨true⟩ idCodec 22 .setParameterFailed [1, 2, 3] =
      some [1, 2, 3] := by
  have h1 := backend_round_trip idCodec idCodec_roundTrip ⟨⟩ ⟨true⟩ rfl 3 []
    .injected
  have h2 := backend_round_trip idCodec idCodec_roundTrip ⟨⟩ ⟨true⟩ rfl 40
    [7, 7] .injected
  have h3 := backend_round_trip idCodec idCodec_roundTrip ⟨⟩ ⟨true⟩ rfl 22
    [1, 2, 3] .setParameterFailed
  exact ⟨h1.1 (by omega) (by omega), h2.2.1, h3.2.2 (by omega) (by omega)⟩

end StargzZstd
